import Mathlib

/-!
Verification of the computational core of `light_optimizer.py`
(smart office light dashboard).

Shallow embedding conventions:
* Python numbers (ints and floats from the CSV) are modelled as `ℚ`;
  `round(x, 4)` is modelled as exact round-half-even rounding on `ℚ`
  at four decimal places, matching Python's banker's rounding.
* The pandas data frame used by the nearest-time matcher is modelled as
  a list of column names together with rows of cell values, so that
  missing columns and in-place column assignment can be expressed.
* Fallible Python code (the `try`/`except` blocks, dictionary and list
  indexing, JSON decoding, the HTTP POST) is modelled with `Except`;
  the outcome of the network call is a parameter of the embedding.
-/

namespace LightOptimizer

/-- Round-half-even on rationals (Python's `round` to zero decimals). -/
def roundHalfEven (q : ℚ) : ℤ :=
  let f : ℤ := ⌊q⌋
  let r : ℚ := q - f
  if r < 1/2 then f
  else if 1/2 < r then f + 1
  else if f % 2 = 0 then f else f + 1

/-- Python `round(x, 4)` on the rational model of a float. -/
def round4 (q : ℚ) : ℚ := (roundHalfEven (q * 10000) : ℚ) / 10000

/-- `evaluate_brightness` from `light_optimizer.py`:
`if lux > 500: return 10 elif lux > 300: return 40 else: return 80`. -/
def evaluate_brightness (lux : ℚ) : ℤ :=
  if lux > 500 then 10
  else if lux > 300 then 40
  else 80

/-- `calculate_energy_kwh(brightness_percent, hours=1, watt=40)`:
`round((brightness_percent / 100) * watt * hours / 1000, 4)`. -/
def calculate_energy_kwh (brightness_percent : ℚ) (hours : ℚ := 1) (watt : ℚ := 40) : ℚ :=
  round4 ((brightness_percent / 100) * watt * hours / 1000)

/-- `calculate_cost(kwh, rate=0.15)`: `round(kwh * rate, 4)`. -/
def calculate_cost (kwh : ℚ) (rate : ℚ := 0.15) : ℚ :=
  round4 (kwh * rate)

/-- The per-reading enrichment pipeline from `main`:
brightness from lux, energy from brightness, cost from energy. -/
def enrich (lux : ℚ) : ℤ × ℚ × ℚ :=
  let b := evaluate_brightness lux
  let e := calculate_energy_kwh (b : ℚ)
  let c := calculate_cost e
  (b, e, c)

/-- The pipeline applied to a whole column of lux readings. -/
def enrichAll (luxes : List ℚ) : List (ℤ × ℚ × ℚ) :=
  luxes.map enrich

end LightOptimizer

namespace LightOptimizer

/-- C2: `evaluate_brightness` maps every rational lux value into
{10, 40, 80} by the strict thresholds: lux > 500 gives 10,
300 < lux ≤ 500 gives 40, lux ≤ 300 (negatives included) gives 80. -/
theorem evaluate_brightness_thresholds (lux : ℚ) :
    (evaluate_brightness lux = 10 ∨ evaluate_brightness lux = 40 ∨
      evaluate_brightness lux = 80) ∧
    (500 < lux → evaluate_brightness lux = 10) ∧
    (300 < lux ∧ lux ≤ 500 → evaluate_brightness lux = 40) ∧
    (lux ≤ 300 → evaluate_brightness lux = 80) := by
  unfold evaluate_brightness
  split_ifs with h1 h2 <;>
    refine ⟨by tauto, ?_, ?_, ?_⟩ <;> intro h <;> first
      | rfl
      | (exfalso; push_neg at *; try obtain ⟨h3, h4⟩ := h) <;> linarith

/-- Witness for C2: a lux reading of 600 falls in the top bucket. -/
theorem evaluate_brightness_thresholds_witness :
    evaluate_brightness 600 = 10 :=
  (evaluate_brightness_thresholds 600).2.1 (by norm_num)

/-- C3: with the default hours=1 and watt=40, `calculate_energy_kwh`
returns `round(brightness_percent/100 * watt * hours / 1000, 4)`, and in
particular maps brightness 80 to 0.032, 40 to 0.016 and 10 to 0.004. -/
theorem calculate_energy_kwh_contract (brightness_percent : ℚ) :
    calculate_energy_kwh brightness_percent =
      round4 ((brightness_percent / 100) * 40 * 1 / 1000) ∧
    calculate_energy_kwh 80 = 0.032 ∧
    calculate_energy_kwh 40 = 0.016 ∧
    calculate_energy_kwh 10 = 0.004 := by
  refine ⟨rfl, ?_, ?_, ?_⟩ <;>
    norm_num [calculate_energy_kwh, round4, roundHalfEven]

/-- C4: with the default rate=0.15, `calculate_cost` returns
`round(kwh * rate, 4)`, and in particular maps kwh 0.032 to 0.0048. -/
theorem calculate_cost_contract (kwh : ℚ) :
    calculate_cost kwh = round4 (kwh * 0.15) ∧
    calculate_cost 0.032 = 0.0048 := by
  exact ⟨rfl, by norm_num [calculate_cost, round4, roundHalfEven]⟩

/-- C7: the enrichment pipeline is deterministic — equal lux inputs give
equal (brightness, energy_kwh, cost) triples, and running the pipeline
twice over the same rows gives identical results (no hidden state). -/
theorem enrich_deterministic (l₁ l₂ : ℚ) (rows : List ℚ) :
    (l₁ = l₂ → enrich l₁ = enrich l₂) ∧ enrichAll rows = enrichAll rows := by
  exact ⟨fun h => h ▸ rfl, rfl⟩

/-- Witness for C7: the two hypothesis-bearing parts at lux = 450. -/
theorem enrich_deterministic_witness :
    enrich 450 = enrich 450 :=
  (enrich_deterministic 450 450 []).1 rfl

/-! ### The schedule narrator (`call_groq_scheduler`) -/

/-- One enriched row as consumed by the narrator: the columns
`time`, `lux` and `brightness` read off by `row['...']` in the
list comprehension of `call_groq_scheduler`. Numeric cells are
rendered with `toString` of the rational/integer model. -/
structure Reading where
  time : String
  lux : ℚ
  brightness : ℤ

/-- The f-string
`f"Time: {row['time']}, Daylight: {row['lux']} lux, Brightness: {row['brightness']}%"`. -/
def promptLine (r : Reading) : String :=
  "Time: " ++ r.time ++ ", Daylight: " ++ toString r.lux ++
    " lux, Brightness: " ++ toString r.brightness ++ "%"

/-- The fixed instruction preamble of the prompt (first two string
literals of `full_prompt`). -/
def promptPreamble : String :=
  "You are an intelligent office lighting assistant. Based on the data below, generate a natural-language schedule describing when and why lights change brightness:\n\n"

/-- The fixed trailing format hint of the prompt. -/
def promptFormatHint : String :=
  "\n\nFormat:\nHour: Brightness % - Reason"

/-- `full_prompt` as built in `call_groq_scheduler`: the preamble, then
`"\n".join(prompts)`, then the format hint. -/
def fullPrompt (rows : List Reading) : String :=
  promptPreamble ++ String.intercalate "\n" (rows.map promptLine) ++ promptFormatHint

/-- Modelled from the spec: "one line per row ... joined by newlines",
written as explicit recursion over the rows. -/
def specJoinLines : List String → String
  | [] => ""
  | [s] => s
  | s :: rest => s ++ "\n" ++ specJoinLines rest

/-- Modelled from the spec: the prompt as the spec describes it — a fixed
instruction preamble, then one line per row of the form
`Time: <time>, Daylight: <lux> lux, Brightness: <brightness>%` joined by
newlines, then a fixed trailing format hint. -/
def specPrompt (rows : List Reading) : String :=
  promptPreamble ++
    specJoinLines (rows.map (fun r =>
      "Time: " ++ r.time ++ ", Daylight: " ++ toString r.lux ++
        " lux, Brightness: " ++ toString r.brightness ++ "%")) ++
    promptFormatHint

/-- A JSON value, for the body returned by `response.json()`. -/
inductive Json where
  | jnull : Json
  | jstr : String → Json
  | jnum : ℚ → Json
  | jarr : List Json → Json
  | jobj : List (String × Json) → Json

/-- The HTTP response object: calling `.json()` on it either yields a
parsed JSON value or raises (invalid body). -/
structure HttpResponse where
  jsonBody : Except String Json

/-- Python `'choices' in output`: key membership for a dict, element
membership for a list, substring test for a string, `TypeError` for the
other JSON values. Runs inside the `try` block. -/
def jsonContains (j : Json) (k : String) : Except String Bool :=
  match j with
  | Json.jobj l => Except.ok (l.any (fun p => p.1 = k))
  | Json.jarr l =>
    Except.ok (l.any (fun v => match v with | Json.jstr s => s = k | _ => false))
  | Json.jstr s => Except.ok ((s.splitOn k).length > 1)
  | Json.jnum _ => Except.error "TypeError: argument of type is not iterable"
  | Json.jnull => Except.error "TypeError: argument of type is not iterable"

/-- Python `j[k]` for a string key: dict lookup (`KeyError` when absent),
`TypeError` on non-dicts. -/
def jsonGetKey (j : Json) (k : String) : Except String Json :=
  match j with
  | Json.jobj l =>
    match l.lookup k with
    | some v => Except.ok v
    | none => Except.error "KeyError"
  | _ => Except.error "TypeError"

/-- Python `j[0]`: first element of a list (`IndexError` when empty),
first character of a string, `TypeError`/`KeyError` otherwise. -/
def jsonGetZero (j : Json) : Except String Json :=
  match j with
  | Json.jarr (v :: _) => Except.ok v
  | Json.jarr [] => Except.error "IndexError"
  | Json.jstr s => if s.isEmpty then Except.error "IndexError" else Except.ok (Json.jstr (s.take 1))
  | Json.jobj _ => Except.error "KeyError"
  | _ => Except.error "TypeError"

/-- The extraction `output['choices'][0]['message']['content']`. -/
def extractContent (output : Json) : Except String Json := do
  let c ← jsonGetKey output "choices"
  let c0 ← jsonGetZero c
  let m ← jsonGetKey c0 "message"
  jsonGetKey m "content"

/-- `call_groq_scheduler(dataframe, groq_api_key)`. The outbound
`requests.post` is modelled by the `net` parameter, which maps the API
key and the posted prompt either to a raised exception (`Except.error`)
or to an `HttpResponse`. The POST sits outside the `try` block, so its
exception propagates; everything after `output = response.json()` is
inside the `try` and any exception there becomes the
`"❌ GROQ request failed: ..."` string. A normal return is `Except.ok`
of the returned value (`Json.jstr` for the message strings). -/
def call_groq_scheduler (rows : List Reading) (groq_api_key : String)
    (net : String → String → Except String HttpResponse) : Except String Json :=
  match net groq_api_key (fullPrompt rows) with
  | Except.error e => Except.error e
  | Except.ok response =>
    Except.ok <|
      match response.jsonBody with
      | Except.error e => Json.jstr ("❌ GROQ request failed: " ++ e)
      | Except.ok output =>
        match jsonContains output "choices" with
        | Except.error e => Json.jstr ("❌ GROQ request failed: " ++ e)
        | Except.ok true =>
          match extractContent output with
          | Except.ok content => content
          | Except.error e => Json.jstr ("❌ GROQ request failed: " ++ e)
        | Except.ok false => Json.jstr "⚠️ GROQ did not return a valid response."

/-- A network that raises a transport exception on the POST. -/
def netDown : String → String → Except String HttpResponse :=
  fun _ _ => Except.error "requests.exceptions.ConnectionError"

/-- A network whose POST succeeds but whose body is not valid JSON, so
`response.json()` raises. -/
def netBadJson : String → String → Except String HttpResponse :=
  fun _ _ => Except.ok ⟨Except.error "Expecting value"⟩

/-- A sample enriched table with one reading. -/
def sampleRows : List Reading := [⟨"09:00", 200, 80⟩]

/-- Tail of a newline join: `"\n" ++ a` for each remaining line. -/
def joinTailNL : List String → String
  | [] => ""
  | a :: as => "\n" ++ a ++ joinTailNL as

theorem intercalate_go_eq (as : List String) :
    ∀ acc, String.intercalate.go acc "\n" as = acc ++ joinTailNL as := by
  induction as with
  | nil =>
    intro acc
    simp [String.intercalate.go, joinTailNL, String.append_empty]
  | cons a as ih =>
    intro acc
    simp only [String.intercalate.go, joinTailNL, ih]
    simp [String.append_assoc]

theorem specJoinLines_cons (a : String) (as : List String) :
    specJoinLines (a :: as) = a ++ joinTailNL as := by
  induction as generalizing a with
  | nil => simp [specJoinLines, joinTailNL, String.append_empty]
  | cons b as ih =>
    simp only [specJoinLines, joinTailNL, ih]
    simp [String.append_assoc]

theorem intercalate_eq_specJoin (l : List String) :
    String.intercalate "\n" l = specJoinLines l := by
  cases l with
  | nil => rfl
  | cons a as =>
    show String.intercalate.go a "\n" as = specJoinLines (a :: as)
    rw [intercalate_go_eq, specJoinLines_cons]

end LightOptimizer

namespace LightOptimizer

/-- C8: the prompt emitted to the narrator is exactly the fixed
instruction preamble, then one line per row of the form
`Time: <time>, Daylight: <lux> lux, Brightness: <brightness>%` joined by
newlines, then the fixed trailing format hint. -/
theorem prompt_matches_spec (rows : List Reading) :
    fullPrompt rows = specPrompt rows := by
  unfold fullPrompt specPrompt promptLine
  rw [intercalate_eq_specJoin]

/-- C1 counterexample: with a network whose POST raises a transport
exception, `call_groq_scheduler` propagates the exception to the caller
instead of returning a string — the POST sits outside the `try` block. -/
theorem call_groq_scheduler_raises_on_transport_failure :
    call_groq_scheduler sampleRows "some-api-key" netDown =
      Except.error "requests.exceptions.ConnectionError" := rfl

/-- C1 amended: when the HTTP POST itself returns a response,
`call_groq_scheduler` never raises — every parsing or shape failure
after that point is caught and converted to a string message; in
particular a JSON-decoding failure yields the
`"❌ GROQ request failed: ..."` string. A transport failure in the POST
itself is not caught and propagates. -/
theorem call_groq_scheduler_total_after_transport (rows : List Reading)
    (key : String) (net : String → String → Except String HttpResponse)
    (resp : HttpResponse) (h : net key (fullPrompt rows) = Except.ok resp) :
    (∃ v, call_groq_scheduler rows key net = Except.ok v) ∧
    (∀ e, resp.jsonBody = Except.error e →
      call_groq_scheduler rows key net =
        Except.ok (Json.jstr ("❌ GROQ request failed: " ++ e))) := by
  unfold call_groq_scheduler
  rw [h]
  obtain ⟨b⟩ := resp
  refine ⟨⟨_, rfl⟩, ?_⟩
  intro e he
  change b = Except.error e at he
  subst he
  rfl

/-- Witness for C1's amended theorem: a successful POST whose body fails
to JSON-decode yields the failure string, not an exception. -/
theorem call_groq_scheduler_total_after_transport_witness :
    call_groq_scheduler sampleRows "some-api-key" netBadJson =
      Except.ok (Json.jstr "❌ GROQ request failed: Expecting value") :=
  (call_groq_scheduler_total_after_transport sampleRows "some-api-key"
    netBadJson ⟨Except.error "Expecting value"⟩ rfl).2 "Expecting value" rfl

end LightOptimizer

namespace LightOptimizer

/-! ### The nearest-time matcher (`get_nearest_time_brightness`)

The pandas data frame is modelled as a list of column names and rows of
cells; `df[c] = vals` either overwrites an existing column in place or
appends a new one, which is how line 58 of the source mutates the
caller's table. `datetime.time` values are minutes of the day; "now" is
the wall clock truncated to the minute (`replace(second=0,
microsecond=0)`), also in minutes of the day. -/

/-- A cell of the data frame: a string, a number, a `datetime.time`
(minutes of the day), or a missing value (NaN/NaT/None). -/
inductive Val where
  | vstr : String → Val
  | vnum : ℚ → Val
  | vtime : Nat → Val
  | vnull : Val
deriving DecidableEq, Repr

/-- A pandas `DataFrame`: column names plus rows of cells, one cell per
column, in column order. -/
structure DataFrame where
  cols : List String
  rows : List (List Val)
deriving DecidableEq, Repr

/-- Position of column `c`, `none` when the column is absent
(a `KeyError` in pandas). -/
def colIdx (df : DataFrame) (c : String) : Option Nat :=
  df.cols.findIdx? (fun x => x = c)

/-- The cell of a row at column position `i`. -/
def getCell (row : List Val) (i : Nat) : Val := row.getD i Val.vnull

/-- In-place column assignment `df[c] = vals`: overwrite the existing
column `c`, or append a fresh column when `c` is absent. -/
def setCol (df : DataFrame) (c : String) (vals : List Val) : DataFrame :=
  match colIdx df c with
  | some i => ⟨df.cols, (df.rows.zip vals).map (fun rv => rv.1.set i rv.2)⟩
  | none => ⟨df.cols ++ [c], (df.rows.zip vals).map (fun rv => rv.1 ++ [rv.2])⟩

/-- Split a character list at every `':'`. -/
def splitColon : List Char → List (List Char)
  | [] => [[]]
  | c :: rest =>
    match splitColon rest with
    | [] => [[]]
    | g :: gs => if c = ':' then [] :: g :: gs else (c :: g) :: gs

/-- Value of a decimal digit character, `none` for a non-digit. -/
def digitVal (c : Char) : Option Nat :=
  if c.isDigit then some (c.toNat - 48) else none

/-- Value of a decimal digit string, `none` when any character is not a
digit. -/
def digitsVal (cs : List Char) : Option Nat :=
  cs.foldl
    (fun acc c =>
      match acc, digitVal c with
      | some a, some d => some (a * 10 + d)
      | _, _ => none)
    (some 0)

/-- `strptime`-style parse of an `"%H:%M"` string into minutes of the
day: one or two digits for the hour (0–23), a colon, one or two digits
for the minute (0–59), nothing else. -/
def parseHHMM (s : String) : Option Nat :=
  match splitColon s.toList with
  | [h, m] =>
    if h.length = 0 || 2 < h.length || m.length = 0 || 2 < m.length then none
    else
      match digitsVal h, digitsVal m with
      | some hv, some mv =>
        if hv < 24 && mv < 60 then some (hv * 60 + mv) else none
      | _, _ => none
  | _ => none

/-- `pd.to_datetime(·, format="%H:%M", errors='coerce')` on one cell:
only string cells can parse; everything else coerces to NaT. -/
def parseVal : Val → Option Nat
  | Val.vstr s => parseHHMM s
  | _ => none

/-- A parsed time as a cell: `datetime.time` on success, NaT on
failure. -/
def timeVal : Option Nat → Val
  | some t => Val.vtime t
  | none => Val.vnull

/-- `abs((now - t).total_seconds())` for two same-day timestamps given
in minutes of the day, both with zeroed seconds. -/
def timeDiffSecs (now t : Nat) : Nat :=
  ((now : ℤ) * 60 - (t : ℤ) * 60).natAbs

/-- Index and value of the first minimum of a list, as `Series.idxmin`
returns the first minimal label; `none` on the empty list (where
`idxmin` raises). -/
def firstMinIdx : List Nat → Option (Nat × Nat)
  | [] => none
  | x :: xs =>
    match firstMinIdx xs with
    | none => some (0, x)
    | some jv => if x ≤ jv.2 then some (0, x) else some (jv.1 + 1, jv.2)

/-- The `parsed_time` entries of line 58, one per row of `df`. -/
def parsedTimes (df : DataFrame) (ti : Nat) : List (Option Nat) :=
  df.rows.map (fun row => parseVal (getCell row ti))

/-- The mutated caller table: `df` after the in-place assignment
`df['parsed_time'] = ...` of line 58. -/
def withParsedTime (df : DataFrame) (ti : Nat) : DataFrame :=
  setCol df "parsed_time" ((parsedTimes df ti).map timeVal)

/-- The rows surviving `dropna(subset=['parsed_time'])`, each paired with
its parsed time. -/
def keptRows (df : DataFrame) (ti : Nat) : List (List Val × Nat) :=
  (df.rows.zip (parsedTimes df ti)).filterMap
    (fun rp => rp.2.map (fun t => (rp.1, t)))

/-- The `time_diff` column over the kept rows. -/
def diffList (now : Nat) (kept : List (List Val × Nat)) : List Nat :=
  kept.map (fun rt => timeDiffSecs now rt.2)

/-- The body of `get_nearest_time_brightness` with its failure points
explicit: `Except.error` marks a raised exception (`KeyError` on a
missing `time` column before the mutation, `ValueError` from `idxmin` on
an empty filtered table, `KeyError` on a missing `brightness` column at
the end); the first component is the caller's table as left behind by
the in-place mutation of line 58. -/
def get_nearest_aux (now : Nat) (df : DataFrame) :
    DataFrame × Except Unit (Val × Val) :=
  match colIdx df "time" with
  | none => (df, Except.error ())
  | some ti =>
    match firstMinIdx (diffList now (keptRows df ti)) with
    | none => (withParsedTime df ti, Except.error ())
    | some iv =>
      match colIdx df "brightness" with
      | none => (withParsedTime df ti, Except.error ())
      | some bi =>
        (withParsedTime df ti,
          Except.ok
            (getCell ((keptRows df ti).getD iv.1 ([], 0)).1 ti,
             getCell ((keptRows df ti).getD iv.1 ([], 0)).1 bi))

/-- `get_nearest_time_brightness(df)`: the whole body runs under
`try`/`except`, so any raised exception becomes the sentinel
`(None, None)`. The first component is the caller's table after the
call (the in-place mutation survives the `except`). -/
def get_nearest_time_brightness (now : Nat) (df : DataFrame) :
    DataFrame × (Option Val × Option Val) :=
  ((get_nearest_aux now df).1,
    match (get_nearest_aux now df).2 with
    | Except.ok tb => (some tb.1, some tb.2)
    | Except.error _ => (none, none))

/-- The absolute distance, in seconds, between "now" and a row's parsed
time (both in minutes of the day). -/
def rowDiff (now ti : Nat) (row : List Val) : Nat :=
  timeDiffSecs now ((parseVal (getCell row ti)).getD 0)

/-- A table with a `time` and a `brightness` column, as the spec's
nearest-time example: rows at 09:00 and 13:00. -/
def df6 : DataFrame :=
  ⟨["time", "lux", "brightness"],
   [[Val.vstr "09:00", Val.vnum 200, Val.vnum 80],
    [Val.vstr "13:00", Val.vnum 600, Val.vnum 10]]⟩

/-- A table whose single time field does not parse as HH:MM. -/
def dfBad : DataFrame :=
  ⟨["time", "lux", "brightness"],
   [[Val.vstr "9am", Val.vnum 100, Val.vnum 80]]⟩

/-- A table with no `time` (and no `brightness`) column at all. -/
def dfNoTime : DataFrame := ⟨["lux"], [[Val.vnum 100]]⟩

theorem aux_time_none (now : Nat) (df : DataFrame)
    (h : colIdx df "time" = none) :
    get_nearest_aux now df = (df, Except.error ()) := by
  unfold get_nearest_aux
  rw [h]

theorem aux_eq_of_time (now : Nat) (df : DataFrame) (ti : Nat)
    (h : colIdx df "time" = some ti) :
    get_nearest_aux now df =
      match firstMinIdx (diffList now (keptRows df ti)) with
      | none => (withParsedTime df ti, Except.error ())
      | some iv =>
        match colIdx df "brightness" with
        | none => (withParsedTime df ti, Except.error ())
        | some bi =>
          (withParsedTime df ti,
            Except.ok
              (getCell ((keptRows df ti).getD iv.1 ([], 0)).1 ti,
               getCell ((keptRows df ti).getD iv.1 ([], 0)).1 bi)) := by
  unfold get_nearest_aux
  rw [h]

theorem keptRows_eq_nil (df : DataFrame) (ti : Nat)
    (h : ∀ row ∈ df.rows, parseVal (getCell row ti) = none) :
    keptRows df ti = [] := by
  unfold keptRows parsedTimes
  revert h
  induction df.rows with
  | nil => intro h; rfl
  | cons r rs ih =>
    intro h
    have h0 := h r (by simp)
    simp only [List.map_cons, List.zip_cons_cons, List.filterMap_cons, h0,
      Option.map_none]
    exact ih (fun row hr => h row (by simp [hr]))

end LightOptimizer

namespace LightOptimizer

/-- C5: when every time field of the table fails to parse as HH:MM (in
particular when the table is empty), the unparsable rows are dropped and
`get_nearest_time_brightness` returns the sentinel `(None, None)`
instead of failing. -/
theorem unparsable_rows_sentinel (now : Nat) (df : DataFrame) (ti : Nat)
    (hc : colIdx df "time" = some ti)
    (h : ∀ row ∈ df.rows, parseVal (getCell row ti) = none) :
    (get_nearest_time_brightness now df).2 = (none, none) := by
  have hk : keptRows df ti = [] := keptRows_eq_nil df ti h
  unfold get_nearest_time_brightness
  rw [aux_eq_of_time now df ti hc, hk]
  rfl

/-- Witness for C5: a one-row table whose time field is `"9am"` yields
the sentinel. -/
theorem unparsable_rows_sentinel_witness :
    (get_nearest_time_brightness 545 dfBad).2 = (none, none) :=
  unparsable_rows_sentinel 545 dfBad 0 rfl (by decide)

/-- C10: `get_nearest_time_brightness` is total — a missing `time`
column or a missing `brightness` column yields the sentinel
`(None, None)` rather than an uncaught exception, and on every input the
result is either the sentinel or a `(some, some)` pair. -/
theorem matcher_total_sentinel (now : Nat) (df : DataFrame) :
    (colIdx df "time" = none →
      (get_nearest_time_brightness now df).2 = (none, none)) ∧
    (colIdx df "brightness" = none →
      (get_nearest_time_brightness now df).2 = (none, none)) ∧
    ((get_nearest_time_brightness now df).2 = (none, none) ∨
      ∃ t b, (get_nearest_time_brightness now df).2 = (some t, some b)) := by
  unfold get_nearest_time_brightness
  cases hc : colIdx df "time" with
  | none =>
    rw [aux_time_none now df hc]
    simp [hc]
  | some ti =>
    rw [aux_eq_of_time now df ti hc]
    cases hm : firstMinIdx (diffList now (keptRows df ti)) with
    | none => simp [hc]
    | some iv =>
      cases hb : colIdx df "brightness" with
      | none => simp [hc, hb]
      | some bi => simp [hc, hb]

/-- Witness for C10: a table with no `time` column yields the
sentinel. -/
theorem matcher_total_sentinel_witness :
    (get_nearest_time_brightness 545 dfNoTime).2 = (none, none) :=
  (matcher_total_sentinel 545 dfNoTime).1 rfl

theorem colIdx_eq_none (df : DataFrame) (c : String) (h : c ∉ df.cols) :
    colIdx df c = none := by
  unfold colIdx
  rw [List.findIdx?_eq_none_iff]
  intro x hx
  simp only [decide_eq_false_iff_not]
  intro hxc
  exact h (hxc ▸ hx)

theorem zip_map_append (rows : List (List Val)) (g : List Val → Val) :
    ((rows.zip (rows.map g)).map (fun rv => rv.1 ++ [rv.2])) =
      rows.map (fun row => row ++ [g row]) := by
  induction rows with
  | nil => rfl
  | cons r rs ih => simp [ih]

theorem aux_fst_eq (now : Nat) (df : DataFrame) (ti : Nat)
    (hc : colIdx df "time" = some ti) :
    (get_nearest_aux now df).1 = withParsedTime df ti := by
  rw [aux_eq_of_time now df ti hc]
  cases firstMinIdx (diffList now (keptRows df ti)) with
  | none => rfl
  | some iv =>
    cases colIdx df "brightness" with
    | none => rfl
    | some bi => rfl

/-- C9: the matcher mutates the caller's table — after the call the
table has one extra `parsed_time` column holding the parsed HH:MM value
(NaT where parsing failed) appended after the pre-existing columns, and
every pre-existing column's cells are unchanged (each row keeps its
original cells as a prefix). -/
theorem matcher_mutates_parsed_time (now : Nat) (df : DataFrame) (ti : Nat)
    (hc : colIdx df "time" = some ti) (hnp : "parsed_time" ∉ df.cols) :
    (get_nearest_time_brightness now df).1.cols = df.cols ++ ["parsed_time"] ∧
    (get_nearest_time_brightness now df).1.rows =
      df.rows.map (fun row => row ++ [timeVal (parseVal (getCell row ti))]) := by
  have h0 : (get_nearest_time_brightness now df).1 = (get_nearest_aux now df).1 := rfl
  rw [h0, aux_fst_eq now df ti hc]
  have hpc : colIdx df "parsed_time" = none := colIdx_eq_none df _ hnp
  unfold withParsedTime setCol
  rw [hpc]
  refine ⟨rfl, ?_⟩
  unfold parsedTimes
  rw [List.map_map]
  exact zip_map_append df.rows _

/-- Witness for C9: the 09:00/13:00 table gains a `parsed_time` column
with the parsed minutes, its original columns untouched. -/
theorem matcher_mutates_parsed_time_witness :
    (get_nearest_time_brightness 545 df6).1.cols = df6.cols ++ ["parsed_time"] ∧
    (get_nearest_time_brightness 545 df6).1.rows =
      df6.rows.map (fun row => row ++ [timeVal (parseVal (getCell row 0))]) :=
  matcher_mutates_parsed_time 545 df6 0 rfl (by decide)

theorem firstMinIdx_none_iff (l : List Nat) : firstMinIdx l = none ↔ l = [] := by
  cases l with
  | nil => simp [firstMinIdx]
  | cons x xs =>
    simp only [firstMinIdx]
    cases firstMinIdx xs with
    | none => simp
    | some jv => by_cases h : x ≤ jv.2 <;> simp [h]

theorem firstMinIdx_spec (l : List Nat) (hl : l ≠ []) :
    ∃ i v, firstMinIdx l = some (i, v) ∧ ∃ hi : i < l.length,
      l[i] = v ∧
      (∀ j, ∀ hj : j < l.length, v ≤ l[j]) ∧
      (∀ j, ∀ hj : j < l.length, j < i → v < l[j]) := by
  induction l with
  | nil => exact absurd rfl hl
  | cons x xs ih =>
    by_cases hxe : xs = []
    · subst hxe
      refine ⟨0, x, rfl, Nat.one_pos, rfl, ?_, ?_⟩
      · intro j hj
        have hj1 : j < 1 := by simpa using hj
        have hj0 : j = 0 := by omega
        subst hj0
        simp
      · intro j hj hj0
        exact absurd hj0 (Nat.not_lt_zero j)
    · obtain ⟨j, v, hfm, hj, hget, hmin, hstrict⟩ := ih hxe
      by_cases hxv : x ≤ v
      · refine ⟨0, x, ?_, Nat.succ_pos _, rfl, ?_, ?_⟩
        · simp only [firstMinIdx, hfm]
          simp [hxv]
        · intro k hk
          cases k with
          | zero => simp
          | succ m =>
            have hm : m < xs.length := by simpa using hk
            simpa using le_trans hxv (hmin m hm)
        · intro k hk hk0
          exact absurd hk0 (Nat.not_lt_zero k)
      · push_neg at hxv
        refine ⟨j + 1, v, ?_, Nat.succ_lt_succ hj, ?_, ?_, ?_⟩
        · simp only [firstMinIdx, hfm]
          simp [if_neg (not_le.mpr hxv)]
        · simpa using hget
        · intro k hk
          cases k with
          | zero => simpa using le_of_lt hxv
          | succ m =>
            have hm : m < xs.length := by simpa using hk
            simpa using hmin m hm
        · intro k hk hkj
          cases k with
          | zero => simpa using hxv
          | succ m =>
            have hm : m < xs.length := by simpa using hk
            have hmj : m < j := by omega
            simpa using hstrict m hm hmj

theorem keptRows_of_parsable (df : DataFrame) (ti : Nat)
    (hp : ∀ row ∈ df.rows, (parseVal (getCell row ti)).isSome = true) :
    keptRows df ti =
      df.rows.map (fun row => (row, (parseVal (getCell row ti)).getD 0)) := by
  unfold keptRows parsedTimes
  revert hp
  induction df.rows with
  | nil => intro _; rfl
  | cons r rs ih =>
    intro hp
    obtain ⟨t, ht⟩ := Option.isSome_iff_exists.1 (hp r (by simp))
    simp only [List.map_cons, List.zip_cons_cons, List.filterMap_cons, ht]
    simp [ht, ih (fun row hr => hp row (by simp [hr]))]

end LightOptimizer

namespace LightOptimizer

/-- C6: on a non-empty table whose time fields all parse,
`get_nearest_time_brightness` returns the `(time, brightness)` cells of
the row whose absolute time difference in seconds from "now" is minimal,
and on ties the earliest such row wins (every strictly earlier row has a
strictly larger difference). -/
theorem nearest_time_min_first (now : Nat) (df : DataFrame) (ti bi : Nat)
    (hc : colIdx df "time" = some ti) (hb : colIdx df "brightness" = some bi)
    (hne : df.rows ≠ [])
    (hp : ∀ row ∈ df.rows, (parseVal (getCell row ti)).isSome = true) :
    ∃ i, ∃ hi : i < df.rows.length,
      (get_nearest_time_brightness now df).2 =
        (some (getCell df.rows[i] ti), some (getCell df.rows[i] bi)) ∧
      (∀ j, ∀ hj : j < df.rows.length,
        rowDiff now ti df.rows[i] ≤ rowDiff now ti df.rows[j]) ∧
      (∀ j, ∀ hj : j < df.rows.length, j < i →
        rowDiff now ti df.rows[i] < rowDiff now ti df.rows[j]) := by
  have hkept := keptRows_of_parsable df ti hp
  have hdiff : diffList now (keptRows df ti) =
      df.rows.map (fun row => rowDiff now ti row) := by
    rw [hkept]
    unfold diffList rowDiff
    rw [List.map_map]
    rfl
  have hnil : df.rows.map (fun row => rowDiff now ti row) ≠ [] := by
    simpa using hne
  obtain ⟨i, v, hfm, hi, hget, hmin, hstrict⟩ := firstMinIdx_spec _ hnil
  have hi' : i < df.rows.length := by simpa using hi
  have hvi : rowDiff now ti df.rows[i] = v := by
    simpa using hget
  have hKd : (keptRows df ti)[i]?.getD ([], 0) =
      (df.rows[i], (parseVal (getCell df.rows[i] ti)).getD 0) := by
    rw [hkept, List.getElem?_map, List.getElem?_eq_getElem hi']
    rfl
  refine ⟨i, hi', ?_, ?_, ?_⟩
  · unfold get_nearest_time_brightness
    rw [aux_eq_of_time now df ti hc, hdiff, hfm]
    cases hbb : colIdx df "brightness" with
    | none =>
      rw [hb] at hbb
      exact absurd hbb (by simp)
    | some bi2 =>
      rw [hb] at hbb
      injection hbb with hbi
      subst hbi
      simp [hKd]
  · intro j hj
    have hj2 : j < (df.rows.map (fun row => rowDiff now ti row)).length := by
      simpa using hj
    have h1 := hmin j hj2
    simp only [List.getElem_map] at h1
    rw [hvi]
    exact h1
  · intro j hj hji
    have hj2 : j < (df.rows.map (fun row => rowDiff now ti row)).length := by
      simpa using hj
    have h1 := hstrict j hj2 hji
    simp only [List.getElem_map] at h1
    rw [hvi]
    exact h1

/-- Witness for C6: at 09:05 over the 09:00/13:00 table, a minimizing
first row exists with the matcher's output. -/
theorem nearest_time_min_first_witness :
    ∃ i, ∃ hi : i < df6.rows.length,
      (get_nearest_time_brightness 545 df6).2 =
        (some (getCell df6.rows[i] 0), some (getCell df6.rows[i] 2)) ∧
      (∀ j, ∀ hj : j < df6.rows.length,
        rowDiff 545 0 df6.rows[i] ≤ rowDiff 545 0 df6.rows[j]) ∧
      (∀ j, ∀ hj : j < df6.rows.length, j < i →
        rowDiff 545 0 df6.rows[i] < rowDiff 545 0 df6.rows[j]) :=
  nearest_time_min_first 545 df6 0 2 rfl rfl (by decide) (by decide)

end LightOptimizer
